import Mathlib

/-!
# Verification of the rpmsg_netif virtual-Ethernet driver

Shallow embedding of the transmit/shutdown state machine of the Linux-side
driver (src/linux/rpmsg_eth.c) and of the companion-side (FreeRTOS/lwIP)
adapter (src/freertos/rpmsg_eth.c), with proofs of the design's invariants:
single in-flight frame, bounded single retry, shutdown coordination,
statistics accounting, and the error-handling paths.
-/

namespace RpmsgNetif

/-! ## Data model (struct rpmsg_eth_private, src/linux/rpmsg_eth.c lines 33-61) -/

/-- An outbound/inbound Ethernet frame; only its length is observable to the
driver logic we model (`skb->len`). -/
structure Frame where
  len : Nat
deriving DecidableEq

/-- struct net_device_stats, restricted to the four counters the driver
touches. -/
structure Stats where
  tx_packets : Nat
  tx_bytes : Nat
  rx_packets : Nat
  rx_bytes : Nat
deriving DecidableEq

/-- The driver-private state: the single in-flight skb slot, the retry flag
`is_delayed`, the shutdown flag `is_shutdown`, the netif queue state, and the
pending state of the two work items (immediate work, delayed work).
`delayed_delay` records the jiffies argument last passed to
schedule_delayed_work. -/
structure EthState where
  skb : Option Frame
  is_delayed : Bool
  is_shutdown : Bool
  queue_stopped : Bool
  immediate_scheduled : Bool
  delayed_scheduled : Bool
  delayed_delay : Nat
  stats : Stats
deriving DecidableEq

/-- Scheduler tick frequency; HZ = 100 is the lowest kernel setting, the one
the source's retry-delay comment reasons about (one jiffy = 10 ms). -/
def HZ : Nat := 100

/-- The delay argument of schedule_delayed_work in net_xmit_work_handler,
`(unsigned long)(0.5 + (0.010 * HZ))` (line 142), computed in exact rational
arithmetic: floor((50 + hz) / 100). -/
def retry_delay_jiffies (hz : Nat) : Nat := (50 + hz) / 100

/-- Increment tx_packets by one and tx_bytes by `n`
(lines 91-92 of rpmsg_eth_xmit). -/
def bumpTx (priv : EthState) (n : Nat) : EthState :=
  { priv with stats := { priv.stats with
      tx_packets := priv.stats.tx_packets + 1
      tx_bytes := priv.stats.tx_bytes + n } }

/-- netdev_tx_t return values used by the driver (only NETDEV_TX_OK). -/
inductive NetdevTx
  | ok
deriving DecidableEq

/-- Result of rpmsg_eth_xmit: the updated private state, the netdev_tx_t
return value, and whether dev_consume_skb_any was called on the incoming skb
inside xmit itself (the shutdown-race drop branch). -/
structure XmitOut where
  priv : EthState
  ret : NetdevTx
  freed_now : Bool
deriving DecidableEq

/-- rpmsg_eth_xmit (src/linux/rpmsg_eth.c lines 68-95): stop the queue,
then under the shutdown lock either store the skb and schedule the immediate
work (not shut down), or drop the skb and leave the queue stopped (shut
down); in both cases bump the tx statistics and return NETDEV_TX_OK. -/
def rpmsg_eth_xmit (skb : Frame) (priv : EthState) : XmitOut :=
  let priv := { priv with queue_stopped := true }
  if priv.is_shutdown = false then
    let priv := { priv with skb := some skb, immediate_scheduled := true }
    ⟨bumpTx priv skb.len, NetdevTx.ok, false⟩
  else
    ⟨bumpTx priv skb.len, NetdevTx.ok, true⟩

/-- How a frame left the in-flight slot: successful send, retry-exhaustion
drop, or shutdown reclaim in rpmsg_eth_remove. -/
inductive RetireKind
  | success
  | drop
  | reclaim
deriving DecidableEq

/-- Result of one run of net_xmit_work_handler: updated state, the
retirement event it performed (if any), and whether it called
netif_wake_queue. -/
structure HOut where
  priv : EthState
  retired : Option RetireKind
  woke : Bool
deriving DecidableEq

/-- The `cleanup:` tail of net_xmit_work_handler (lines 158-173): consume the
skb if present, clear is_delayed, and wake the queue unless shut down.
`kind` says which retirement this is when a frame was actually freed. -/
def xmit_cleanup (priv : EthState) (kind : RetireKind) : HOut :=
  let hadSkb := priv.skb.isSome
  let priv := if priv.skb.isSome then { priv with skb := none } else priv
  let priv := { priv with is_delayed := false }
  if priv.is_shutdown = false then
    ⟨{ priv with queue_stopped := false },
      if hadSkb then some kind else none, true⟩
  else
    ⟨priv, if hadSkb then some kind else none, false⟩

/-- net_xmit_work_handler (lines 113-173). `send_err` is whether
rpmsg_trysend returned a nonzero error. NULL skb goes straight to cleanup;
on send error, a second failure (is_delayed) drops the frame via cleanup,
while a first failure schedules the delayed retry when not shut down and
otherwise leaves the frame in the slot for reclaim; on success the frame is
retired via cleanup. -/
def net_xmit_work_handler (send_err : Bool) (priv : EthState) : HOut :=
  match priv.skb with
  | none => xmit_cleanup priv RetireKind.success
  | some _ =>
    if send_err then
      if priv.is_delayed then
        xmit_cleanup priv RetireKind.drop
      else
        if priv.is_shutdown = false then
          let priv := { priv with
            is_delayed := true
            delayed_scheduled := true
            delayed_delay := retry_delay_jiffies HZ }
          ⟨priv, none, false⟩
        else
          ⟨priv, none, false⟩
    else
      xmit_cleanup priv RetireKind.success

/-- net_xmit_delayed_work_handler (lines 97-111): under the lock, kick the
immediate work if a retry is pending and we are not shut down; otherwise do
nothing. -/
def net_xmit_delayed_work_handler (priv : EthState) : EthState :=
  if priv.is_delayed && !priv.is_shutdown then
    { priv with immediate_scheduled := true }
  else
    priv

/-- Result of rpmsg_eth_remove: updated state and the reclaim retirement if
the slot was non-empty. -/
structure RemoveOut where
  priv : EthState
  retired : Option RetireKind
deriving DecidableEq

/-- rpmsg_eth_remove (lines 278-308): under the lock set is_shutdown and stop
the queue; then cancel both work items synchronously; then free the
abandoned skb if any. Note: is_delayed is NOT touched. -/
def rpmsg_eth_remove (priv : EthState) : RemoveOut :=
  let priv := { priv with is_shutdown := true, queue_stopped := true }
  let priv := { priv with delayed_scheduled := false, immediate_scheduled := false }
  if priv.skb.isSome then
    ⟨{ priv with skb := none }, some RetireKind.reclaim⟩
  else
    ⟨priv, none⟩

/-- rpmsg_eth_rx_cb (lines 194-212). `alloc_ok` is whether dev_alloc_skb
succeeded. The source performs NO null check: on allocation failure the very
next statements (skb_reserve, skb_put/memcpy) dereference the NULL pointer,
which we model as `none` (crash). On success the stats are bumped, the frame
is handed to netif_rx (the returned Bool), and 0 is returned. -/
def rpmsg_eth_rx_cb (alloc_ok : Bool) (len : Nat) (priv : EthState) :
    Option (EthState × Bool) :=
  if alloc_ok then
    some ({ priv with stats := { priv.stats with
        rx_packets := priv.stats.rx_packets + 1
        rx_bytes := priv.stats.rx_bytes + len } }, true)
  else
    none

/-- Result of rpmsg_eth_probe (lines 223-276), as a resource ledger: return
value, whether the netdev was allocated, whether free_netdev was called on
an error path, whether the device ended registered. -/
structure ProbeOut where
  ret : Int
  netdev_alloc : Bool
  netdev_freed : Bool
  registered : Bool
deriving DecidableEq

/-- rpmsg_eth_probe (lines 223-276): allocate the etherdev, initialize the
private state, send the dummy payload (on failure: free_netdev and surface
the error), then register_netdev (on failure: surface the error WITHOUT
freeing the netdev — the source returns directly at line 272). `alloc_ok`,
`send_ret`, `register_ret` are the collaborator outcomes. -/
def rpmsg_eth_probe (alloc_ok : Bool) (send_ret : Int) (register_ret : Int) :
    ProbeOut :=
  if alloc_ok = false then
    ⟨-12, false, false, false⟩
  else if send_ret ≠ 0 then
    ⟨send_ret, true, true, false⟩
  else if register_ret ≠ 0 then
    ⟨register_ret, true, false, false⟩
  else
    ⟨0, true, false, true⟩

/-! ## Companion-side adapter (src/freertos/rpmsg_eth.c) -/

/-- lwIP error codes used by the companion side. -/
def ERR_OK : Int := 0

/-- lwIP out-of-memory error. -/
def ERR_MEM : Int := -1

/-- lwIP buffer error. -/
def ERR_BUF : Int := -2

/-- lwIP low-level netif error. -/
def ERR_IF : Int := -12

/-- OpenAMP success return of an endpoint callback. -/
def RPMSG_SUCCESS : Int := 0

/-- Ethernet type field value for IP. -/
def ETHTYPE_IP : Nat := 0x0800

/-- Ethernet type field value for ARP. -/
def ETHTYPE_ARP : Nat := 0x0806

/-- Result of the companion-side RX callback rpmsg_endpoint_cb: its return
value, whether the frame was handed to netif->input and accepted, whether
the pbuf was freed locally, and whether any statistics counter of the
receive path was incremented (the source has none). -/
structure FrRxOut where
  ret : Int
  handed_upstream : Bool
  freed : Bool
  stats_inc : Bool
deriving DecidableEq

/-- rpmsg_endpoint_cb (src/freertos/rpmsg_eth.c lines 104-144): allocate a
pbuf (on failure return ERR_MEM, nothing else happens), copy the payload,
switch on the Ethernet type: IP/ARP frames go to netif->input (freed locally
if input rejects), anything else is freed. `alloc_ok` is the pbuf_alloc
outcome, `eth_type` the frame's type field, `input_ok` the netif->input
outcome. -/
def rpmsg_endpoint_cb (alloc_ok : Bool) (eth_type : Nat) (input_ok : Bool) :
    FrRxOut :=
  if alloc_ok = false then
    ⟨ERR_MEM, false, false, false⟩
  else if eth_type = ETHTYPE_IP ∨ eth_type = ETHTYPE_ARP then
    if input_ok then
      ⟨RPMSG_SUCCESS, true, false, false⟩
    else
      ⟨RPMSG_SUCCESS, false, true, false⟩
  else
    ⟨RPMSG_SUCCESS, false, true, false⟩

/-- Result of rpmsg_eth_init, as a resource ledger: return value, whether
mem_malloc succeeded, whether mem_free was called on the allocation before
returning, whether the endpoint was created. -/
structure FrInitOut where
  ret : Int
  malloc_done : Bool
  malloc_freed : Bool
  ept_created : Bool
deriving DecidableEq

/-- rpmsg_eth_init (src/freertos/rpmsg_eth.c lines 47-102): mem_malloc the
private struct (on failure return ERR_MEM); set up the netif fields; call
rpmsg_create_ept (on failure return ERR_IF — the source returns directly at
line 95 WITHOUT freeing the mem_malloc'd struct); on success return ERR_OK.
`malloc_ok` and `ept_ok` are the collaborator outcomes. -/
def rpmsg_eth_init (malloc_ok : Bool) (ept_ok : Bool) : FrInitOut :=
  if malloc_ok = false then
    ⟨ERR_MEM, false, false, false⟩
  else if ept_ok = false then
    ⟨ERR_IF, true, false, false⟩
  else
    ⟨ERR_OK, true, false, true⟩

/-! ## Device-lifetime trace model

An interleaving semantics for one device instance: the host stack accepting
a frame (a call of rpmsg_eth_xmit, which the stack only makes while the
transmit queue is running), one run of the immediate work handler (enabled
while the immediate work item is pending; rpmsg_trysend's outcome is the
event's parameter), one run of the delayed work handler, and the single
rpmsg_eth_remove call. Running a work item clears its pending bit, as in the
kernel work-queue semantics; cancel_work_sync is modelled by remove clearing
both pending bits. -/

/-- The events of one device lifetime. -/
inductive Ev
  | accept (f : Frame)
  | run_immediate (send_err : Bool)
  | run_delayed
  | do_remove
deriving DecidableEq

/-- Whole-system state: the driver-private state plus whether
rpmsg_eth_remove has run. -/
structure Sys where
  dev : EthState
  removed : Bool
deriving DecidableEq

/-- Event enabledness: the stack transmits only while the queue is running;
work handlers run only while their item is pending; remove runs once. -/
def enabled (s : Sys) : Ev → Bool
  | Ev.accept _ => !s.dev.queue_stopped
  | Ev.run_immediate _ => s.dev.immediate_scheduled
  | Ev.run_delayed => s.dev.delayed_scheduled
  | Ev.do_remove => !s.removed

/-- One step: the next system state, the retirement event performed (if
any), and whether a frame was accepted into the slot. -/
def stepEv (s : Sys) : Ev → Sys × Option RetireKind × Bool
  | Ev.accept f =>
    let out := rpmsg_eth_xmit f s.dev
    ({ s with dev := out.priv }, none, !s.dev.is_shutdown)
  | Ev.run_immediate send_err =>
    let d := { s.dev with immediate_scheduled := false }
    let out := net_xmit_work_handler send_err d
    ({ s with dev := out.priv }, out.retired, false)
  | Ev.run_delayed =>
    let d := { s.dev with delayed_scheduled := false }
    ({ s with dev := net_xmit_delayed_work_handler d }, none, false)
  | Ev.do_remove =>
    let out := rpmsg_eth_remove s.dev
    (⟨out.priv, true⟩, out.retired, false)

/-- Run a trace of events from state `s`, accumulating the number of
accepted frames `a` and of retirement events `r`; `none` if some event was
not enabled when reached. -/
def runAux : Sys → Nat → Nat → List Ev → Option (Sys × Nat × Nat)
  | s, a, r, [] => some (s, a, r)
  | s, a, r, ev :: rest =>
    if enabled s ev = true then
      runAux (stepEv s ev).1
        (a + (if (stepEv s ev).2.2 = true then 1 else 0))
        (r + (if (stepEv s ev).2.1.isSome = true then 1 else 0)) rest
    else
      none

/-- The private state right after probe + open: empty slot, flags clear,
queue running, zeroed statistics (lines 250-255 and rpmsg_eth_open). -/
def init_dev : EthState := ⟨none, false, false, false, false, false, 0, ⟨0, 0, 0, 0⟩⟩

/-- Initial system state: fresh device, not removed. -/
def init_sys : Sys := ⟨init_dev, false⟩

/-- Run a trace from the initial state. -/
def runTrace (t : List Ev) : Option (Sys × Nat × Nat) :=
  runAux init_sys 0 0 t

/-- The inductive invariant of the device lifetime, relating the state to
the accepted/retired counters: the slot holds exactly the accepted-but-not-
yet-retired frame; a non-empty slot implies a stopped queue; the shutdown
flag tracks removal; after removal everything is drained; a running queue
implies the retry flag is clear; the retry flag (pre-removal) means a retry
is pending or running; pending work implies a non-empty slot; the two work
items are never pending simultaneously. -/
def Inv (s : Sys) (a r : Nat) : Prop :=
  a = r + (if s.dev.skb.isSome then 1 else 0) ∧
  (s.dev.skb.isSome = true → s.dev.queue_stopped = true) ∧
  s.dev.is_shutdown = s.removed ∧
  (s.removed = true → s.dev.skb = none ∧ s.dev.immediate_scheduled = false ∧
    s.dev.delayed_scheduled = false ∧ s.dev.queue_stopped = true) ∧
  (s.dev.queue_stopped = false → s.dev.is_delayed = false) ∧
  (s.dev.is_delayed = true → s.removed = true ∨ (s.dev.skb.isSome = true ∧
    (s.dev.delayed_scheduled = true ∨ s.dev.immediate_scheduled = true))) ∧
  (s.dev.immediate_scheduled = true → s.dev.skb.isSome = true) ∧
  (s.dev.delayed_scheduled = true →
    s.dev.is_delayed = true ∧ s.dev.skb.isSome = true) ∧
  ¬(s.dev.immediate_scheduled = true ∧ s.dev.delayed_scheduled = true)

theorem init_inv : Inv init_sys 0 0 := by
  simp [Inv, init_sys, init_dev]

theorem step_inv (s : Sys) (a r : Nat) (ev : Ev) (hI : Inv s a r)
    (hen : enabled s ev = true) :
    Inv (stepEv s ev).1 (a + (if (stepEv s ev).2.2 = true then 1 else 0))
      (r + (if (stepEv s ev).2.1.isSome = true then 1 else 0)) := by
  obtain ⟨⟨skb, dly, sh, q, im, dl, dd, st⟩, rm⟩ := s
  cases ev with
  | accept f =>
    cases skb <;> cases dly <;> cases sh <;> cases q <;> cases im <;>
      cases dl <;> cases rm <;>
      simp_all [Inv, stepEv, enabled, rpmsg_eth_xmit, bumpTx]
  | run_immediate send_err =>
    cases send_err <;> cases skb <;> cases dly <;> cases sh <;> cases q <;>
      cases im <;> cases dl <;> cases rm <;>
      simp_all [Inv, stepEv, enabled, net_xmit_work_handler, xmit_cleanup]
  | run_delayed =>
    cases skb <;> cases dly <;> cases sh <;> cases q <;> cases im <;>
      cases dl <;> cases rm <;>
      simp_all [Inv, stepEv, enabled, net_xmit_delayed_work_handler]
  | do_remove =>
    cases skb <;> cases dly <;> cases sh <;> cases q <;> cases im <;>
      cases dl <;> cases rm <;>
      simp_all [Inv, stepEv, enabled, rpmsg_eth_remove]

theorem runAux_inv : ∀ (t : List Ev) (s : Sys) (a r : Nat) (s2 : Sys)
    (a2 r2 : Nat), Inv s a r → runAux s a r t = some (s2, a2, r2) →
    Inv s2 a2 r2 := by
  intro t
  induction t with
  | nil =>
    intro s a r s2 a2 r2 h hrun
    simp only [runAux, Option.some.injEq, Prod.mk.injEq] at hrun
    obtain ⟨hs, ha, hr⟩ := hrun
    subst hs; subst ha; subst hr
    exact h
  | cons ev rest ih =>
    intro s a r s2 a2 r2 h hrun
    simp only [runAux] at hrun
    split at hrun
    · exact ih _ _ _ _ _ _ (step_inv s a r ev h (by assumption)) hrun
    · exact absurd hrun (by simp)

theorem runTrace_inv (t : List Ev) (s : Sys) (a r : Nat)
    (h : runTrace t = some (s, a, r)) : Inv s a r :=
  runAux_inv t init_sys 0 0 s a r init_inv h

/-! ## Claim theorems -/

/-- C3: For every accepted frame whose first and second try-send attempts
both fail, the frame is dropped after exactly one retry: when the work
handler runs with the retry flag already true and try-send fails, it retires
the frame (slot released, flag reset) and schedules neither the delayed nor
the immediate work again. -/
theorem C3_retry_exhaustion_drop (f : Frame) (st : EthState)
    (hskb : st.skb = some f) (hd : st.is_delayed = true) :
    (net_xmit_work_handler true st).retired = some RetireKind.drop ∧
    (net_xmit_work_handler true st).priv.skb = none ∧
    (net_xmit_work_handler true st).priv.is_delayed = false ∧
    (net_xmit_work_handler true st).priv.delayed_scheduled =
      st.delayed_scheduled ∧
    (net_xmit_work_handler true st).priv.immediate_scheduled =
      st.immediate_scheduled := by
  cases hsh : st.is_shutdown <;>
    simp [net_xmit_work_handler, xmit_cleanup, hskb, hd, hsh]

theorem C3_retry_exhaustion_drop_witness :
    (net_xmit_work_handler true
        ⟨some ⟨4⟩, true, false, true, false, false, 1, ⟨1, 4, 0, 0⟩⟩).retired =
      some RetireKind.drop ∧
    (net_xmit_work_handler true
        ⟨some ⟨4⟩, true, false, true, false, false, 1, ⟨1, 4, 0, 0⟩⟩).priv.skb =
      none ∧
    (net_xmit_work_handler true
        ⟨some ⟨4⟩, true, false, true, false, false, 1,
          ⟨1, 4, 0, 0⟩⟩).priv.is_delayed = false ∧
    (net_xmit_work_handler true
        ⟨some ⟨4⟩, true, false, true, false, false, 1,
          ⟨1, 4, 0, 0⟩⟩).priv.delayed_scheduled =
      (⟨some ⟨4⟩, true, false, true, false, false, 1,
        ⟨1, 4, 0, 0⟩⟩ : EthState).delayed_scheduled ∧
    (net_xmit_work_handler true
        ⟨some ⟨4⟩, true, false, true, false, false, 1,
          ⟨1, 4, 0, 0⟩⟩).priv.immediate_scheduled =
      (⟨some ⟨4⟩, true, false, true, false, false, 1,
        ⟨1, 4, 0, 0⟩⟩ : EthState).immediate_scheduled :=
  C3_retry_exhaustion_drop ⟨4⟩ _ rfl rfl

/-- C4: When the work handler's try-send fails and the retry flag is false:
if shutdown has not begun, the retry flag is set, exactly one delayed retry
is scheduled with delay retry_delay_jiffies HZ (= 1 jiffy = 10 ms at
HZ = 100), the frame stays in the slot and nothing is retired; if shutdown
has begun, the state is left entirely unchanged (frame kept for teardown
reclaim) and nothing is scheduled. -/
theorem C4_first_failure_single_retry (f : Frame) (st : EthState)
    (hskb : st.skb = some f) (hd : st.is_delayed = false) :
    (st.is_shutdown = false →
      (net_xmit_work_handler true st).priv.is_delayed = true ∧
      (net_xmit_work_handler true st).priv.delayed_scheduled = true ∧
      (net_xmit_work_handler true st).priv.delayed_delay =
        retry_delay_jiffies HZ ∧
      retry_delay_jiffies HZ = 1 ∧
      (net_xmit_work_handler true st).priv.skb = some f ∧
      (net_xmit_work_handler true st).priv.immediate_scheduled =
        st.immediate_scheduled ∧
      (net_xmit_work_handler true st).retired = none) ∧
    (st.is_shutdown = true →
      net_xmit_work_handler true st = ⟨st, none, false⟩) := by
  constructor
  · intro hsh
    simp [net_xmit_work_handler, hskb, hd, hsh, retry_delay_jiffies, HZ]
  · intro hsh
    simp [net_xmit_work_handler, hskb, hd, hsh]

theorem C4_first_failure_single_retry_witness :
    ((⟨some ⟨6⟩, false, false, true, false, false, 0,
        ⟨1, 6, 0, 0⟩⟩ : EthState).is_shutdown = false →
      (net_xmit_work_handler true
          ⟨some ⟨6⟩, false, false, true, false, false, 0,
            ⟨1, 6, 0, 0⟩⟩).priv.is_delayed = true ∧
      (net_xmit_work_handler true
          ⟨some ⟨6⟩, false, false, true, false, false, 0,
            ⟨1, 6, 0, 0⟩⟩).priv.delayed_scheduled = true ∧
      (net_xmit_work_handler true
          ⟨some ⟨6⟩, false, false, true, false, false, 0,
            ⟨1, 6, 0, 0⟩⟩).priv.delayed_delay = retry_delay_jiffies HZ ∧
      retry_delay_jiffies HZ = 1 ∧
      (net_xmit_work_handler true
          ⟨some ⟨6⟩, false, false, true, false, false, 0,
            ⟨1, 6, 0, 0⟩⟩).priv.skb = some ⟨6⟩ ∧
      (net_xmit_work_handler true
          ⟨some ⟨6⟩, false, false, true, false, false, 0,
            ⟨1, 6, 0, 0⟩⟩).priv.immediate_scheduled =
        (⟨some ⟨6⟩, false, false, true, false, false, 0,
          ⟨1, 6, 0, 0⟩⟩ : EthState).immediate_scheduled ∧
      (net_xmit_work_handler true
          ⟨some ⟨6⟩, false, false, true, false, false, 0,
            ⟨1, 6, 0, 0⟩⟩).retired = none) ∧
    ((⟨some ⟨6⟩, false, false, true, false, false, 0,
        ⟨1, 6, 0, 0⟩⟩ : EthState).is_shutdown = true →
      net_xmit_work_handler true
          ⟨some ⟨6⟩, false, false, true, false, false, 0, ⟨1, 6, 0, 0⟩⟩ =
        ⟨⟨some ⟨6⟩, false, false, true, false, false, 0, ⟨1, 6, 0, 0⟩⟩,
          none, false⟩) :=
  C4_first_failure_single_retry ⟨6⟩ _ rfl rfl

/-- C5: When the work handler's try-send succeeds, the frame is retired
(slot released, retry flag reset), no retry is scheduled, and the transmit
queue is woken if and only if the shutdown flag is false. -/
theorem C5_success_retires_and_resumes (f : Frame) (st : EthState)
    (hskb : st.skb = some f) :
    (net_xmit_work_handler false st).retired = some RetireKind.success ∧
    (net_xmit_work_handler false st).priv.skb = none ∧
    (net_xmit_work_handler false st).priv.is_delayed = false ∧
    (net_xmit_work_handler false st).priv.delayed_scheduled =
      st.delayed_scheduled ∧
    (net_xmit_work_handler false st).priv.immediate_scheduled =
      st.immediate_scheduled ∧
    ((net_xmit_work_handler false st).woke = true ↔ st.is_shutdown = false) ∧
    (st.is_shutdown = false →
      (net_xmit_work_handler false st).priv.queue_stopped = false) ∧
    (st.is_shutdown = true →
      (net_xmit_work_handler false st).priv.queue_stopped =
        st.queue_stopped) := by
  cases hsh : st.is_shutdown <;>
    simp [net_xmit_work_handler, xmit_cleanup, hskb, hsh]

theorem C5_success_retires_and_resumes_witness :
    (net_xmit_work_handler false
        ⟨some ⟨2⟩, false, false, true, false, false, 0,
          ⟨1, 2, 0, 0⟩⟩).retired = some RetireKind.success ∧
    (net_xmit_work_handler false
        ⟨some ⟨2⟩, false, false, true, false, false, 0,
          ⟨1, 2, 0, 0⟩⟩).priv.skb = none ∧
    (net_xmit_work_handler false
        ⟨some ⟨2⟩, false, false, true, false, false, 0,
          ⟨1, 2, 0, 0⟩⟩).priv.is_delayed = false ∧
    (net_xmit_work_handler false
        ⟨some ⟨2⟩, false, false, true, false, false, 0,
          ⟨1, 2, 0, 0⟩⟩).priv.delayed_scheduled =
      (⟨some ⟨2⟩, false, false, true, false, false, 0,
        ⟨1, 2, 0, 0⟩⟩ : EthState).delayed_scheduled ∧
    (net_xmit_work_handler false
        ⟨some ⟨2⟩, false, false, true, false, false, 0,
          ⟨1, 2, 0, 0⟩⟩).priv.immediate_scheduled =
      (⟨some ⟨2⟩, false, false, true, false, false, 0,
        ⟨1, 2, 0, 0⟩⟩ : EthState).immediate_scheduled ∧
    ((net_xmit_work_handler false
        ⟨some ⟨2⟩, false, false, true, false, false, 0,
          ⟨1, 2, 0, 0⟩⟩).woke = true ↔
      (⟨some ⟨2⟩, false, false, true, false, false, 0,
        ⟨1, 2, 0, 0⟩⟩ : EthState).is_shutdown = false) ∧
    ((⟨some ⟨2⟩, false, false, true, false, false, 0,
        ⟨1, 2, 0, 0⟩⟩ : EthState).is_shutdown = false →
      (net_xmit_work_handler false
          ⟨some ⟨2⟩, false, false, true, false, false, 0,
            ⟨1, 2, 0, 0⟩⟩).priv.queue_stopped = false) ∧
    ((⟨some ⟨2⟩, false, false, true, false, false, 0,
        ⟨1, 2, 0, 0⟩⟩ : EthState).is_shutdown = true →
      (net_xmit_work_handler false
          ⟨some ⟨2⟩, false, false, true, false, false, 0,
            ⟨1, 2, 0, 0⟩⟩).priv.queue_stopped =
        (⟨some ⟨2⟩, false, false, true, false, false, 0,
          ⟨1, 2, 0, 0⟩⟩ : EthState).queue_stopped) :=
  C5_success_retires_and_resumes ⟨2⟩ _ rfl

/-- C9: The transmit statistics counters are incremented in rpmsg_eth_xmit,
at accept time, exactly once per call (tx_packets by one, tx_bytes by the
frame length), and no other path — work handler, delayed handler, remove —
ever touches the statistics, so totals include frames later dropped by retry
exhaustion or shutdown reclaim and delivery confirmation adds nothing. -/
theorem C9_tx_stats_at_accept (f : Frame) (st : EthState) :
    (rpmsg_eth_xmit f st).priv.stats.tx_packets = st.stats.tx_packets + 1 ∧
    (rpmsg_eth_xmit f st).priv.stats.tx_bytes = st.stats.tx_bytes + f.len ∧
    (∀ e, (net_xmit_work_handler e st).priv.stats = st.stats) ∧
    (net_xmit_delayed_work_handler st).stats = st.stats ∧
    (rpmsg_eth_remove st).priv.stats = st.stats := by
  refine ⟨?_, ?_, ?_, ?_, ?_⟩
  · cases hsh : st.is_shutdown <;> simp [rpmsg_eth_xmit, bumpTx, hsh]
  · cases hsh : st.is_shutdown <;> simp [rpmsg_eth_xmit, bumpTx, hsh]
  · intro e
    cases hskb : st.skb <;> cases e <;> cases hd : st.is_delayed <;>
      cases hsh : st.is_shutdown <;>
      simp [net_xmit_work_handler, xmit_cleanup, hskb, hd, hsh]
  · cases hd : st.is_delayed <;> cases hsh : st.is_shutdown <;>
      simp [net_xmit_delayed_work_handler, hd, hsh]
  · cases hskb : st.skb <;> simp [rpmsg_eth_remove, hskb]

/-- C10: rpmsg_eth_xmit always returns NETDEV_TX_OK; when the shutdown flag
is already set the frame is freed inside xmit itself, the slot is left
unchanged (the frame is never stored), no work is scheduled, and the queue
is left stopped; when not shut down the frame is not freed by xmit. -/
theorem C10_xmit_always_ok (f : Frame) (st : EthState) :
    (rpmsg_eth_xmit f st).ret = NetdevTx.ok ∧
    (st.is_shutdown = true →
      (rpmsg_eth_xmit f st).freed_now = true ∧
      (rpmsg_eth_xmit f st).priv.skb = st.skb ∧
      (rpmsg_eth_xmit f st).priv.immediate_scheduled =
        st.immediate_scheduled ∧
      (rpmsg_eth_xmit f st).priv.queue_stopped = true) ∧
    (st.is_shutdown = false → (rpmsg_eth_xmit f st).freed_now = false) := by
  cases hsh : st.is_shutdown <;> simp [rpmsg_eth_xmit, bumpTx, hsh]

theorem C10_xmit_always_ok_witness :
    (rpmsg_eth_xmit ⟨9⟩
        ⟨none, false, true, true, false, false, 0, ⟨0, 0, 0, 0⟩⟩).freed_now =
      true ∧
    (rpmsg_eth_xmit ⟨9⟩
        ⟨none, false, true, true, false, false, 0, ⟨0, 0, 0, 0⟩⟩).priv.skb =
      (⟨none, false, true, true, false, false, 0,
        ⟨0, 0, 0, 0⟩⟩ : EthState).skb ∧
    (rpmsg_eth_xmit ⟨9⟩
        ⟨none, false, true, true, false, false, 0,
          ⟨0, 0, 0, 0⟩⟩).priv.immediate_scheduled =
      (⟨none, false, true, true, false, false, 0,
        ⟨0, 0, 0, 0⟩⟩ : EthState).immediate_scheduled ∧
    (rpmsg_eth_xmit ⟨9⟩
        ⟨none, false, true, true, false, false, 0,
          ⟨0, 0, 0, 0⟩⟩).priv.queue_stopped = true :=
  (C10_xmit_always_ok ⟨9⟩
    ⟨none, false, true, true, false, false, 0, ⟨0, 0, 0, 0⟩⟩).2.1 rfl

/-- C1: along every device lifetime, retirements never outnumber accepted
frames, at most one frame is accepted-but-unretired at any time, the
in-flight slot is non-empty exactly while that one frame awaits its
retirement, and once rpmsg_eth_remove has run every accepted frame has
received exactly its one retirement (success, retry-exhaustion drop, or
shutdown reclaim) — never zero, never two. -/
theorem C1_exactly_one_retirement (t : List Ev) (s : Sys) (a r : Nat)
    (h : runTrace t = some (s, a, r)) :
    r ≤ a ∧ a ≤ r + 1 ∧ (s.dev.skb.isSome = true ↔ a = r + 1) ∧
      (s.dev.skb = none ↔ a = r) ∧ (s.removed = true → a = r) := by
  have hI := runTrace_inv t s a r h
  obtain ⟨h1, h2, h3, h4, h5, h6, h7, h8, h9⟩ := hI
  cases hx : s.dev.skb with
  | none =>
    rw [hx] at h1
    simp only [Option.isSome_none, Bool.false_eq_true, if_false] at h1
    refine ⟨by omega, by omega, ?_, ?_, fun _ => by omega⟩
    · simp [hx]
      omega
    · simp [hx]
      omega
  | some fr =>
    rw [hx] at h1
    simp only [Option.isSome_some, if_true] at h1
    refine ⟨by omega, by omega, ?_, ?_, ?_⟩
    · simp [hx]
      omega
    · simp [hx]
      omega
    · intro hm
      have hn := (h4 hm).1
      rw [hx] at hn
      cases hn

theorem C1_exactly_one_retirement_witness :
    (1 : Nat) ≤ 1 ∧ (1 : Nat) ≤ 1 + 1 ∧
    ((⟨⟨none, false, false, false, false, false, 0, ⟨1, 7, 0, 0⟩⟩,
        false⟩ : Sys).dev.skb.isSome = true ↔ (1 : Nat) = 1 + 1) ∧
    ((⟨⟨none, false, false, false, false, false, 0, ⟨1, 7, 0, 0⟩⟩,
        false⟩ : Sys).dev.skb = none ↔ (1 : Nat) = 1) ∧
    ((⟨⟨none, false, false, false, false, false, 0, ⟨1, 7, 0, 0⟩⟩,
        false⟩ : Sys).removed = true → (1 : Nat) = 1) :=
  C1_exactly_one_retirement [Ev.accept ⟨7⟩, Ev.run_immediate false]
    ⟨⟨none, false, false, false, false, false, 0, ⟨1, 7, 0, 0⟩⟩, false⟩ 1 1
    (by decide)

/-- C2: after rpmsg_eth_remove has run, the in-flight slot is empty, no work
item is pending, the shutdown flag is set, and no event of the device is
enabled any more — in particular no run of the work handler, hence no
further rpmsg_trysend call, can occur; moreover every path that could
schedule new work refuses under the shutdown flag: xmit neither stores the
frame nor schedules work, the work handler's first-failure branch schedules
no retry and leaves the state untouched, and the delayed handler does not
kick the immediate work. -/
theorem C2_shutdown_quiescence :
    (∀ t s a r, runTrace t = some (s, a, r) → s.removed = true →
      s.dev.skb = none ∧ s.dev.immediate_scheduled = false ∧
        s.dev.delayed_scheduled = false ∧ s.dev.is_shutdown = true ∧
        ∀ ev, enabled s ev = false) ∧
    (∀ f st, st.is_shutdown = true →
      (rpmsg_eth_xmit f st).priv.skb = st.skb ∧
        (rpmsg_eth_xmit f st).priv.immediate_scheduled =
          st.immediate_scheduled ∧
        (rpmsg_eth_xmit f st).priv.delayed_scheduled =
          st.delayed_scheduled) ∧
    (∀ f st, st.skb = some f → st.is_delayed = false →
      st.is_shutdown = true → (net_xmit_work_handler true st).priv = st) ∧
    (∀ st, st.is_shutdown = true → net_xmit_delayed_work_handler st = st) := by
  refine ⟨?_, ?_, ?_, ?_⟩
  · intro t s a r h hrm
    have hI := runTrace_inv t s a r h
    obtain ⟨h1, h2, h3, h4, h5, h6, h7, h8, h9⟩ := hI
    obtain ⟨hskb, him, hdl, hq⟩ := h4 hrm
    refine ⟨hskb, him, hdl, by rw [h3, hrm], ?_⟩
    intro ev
    cases ev <;> simp [enabled, hq, him, hdl, hrm]
  · intro f st hsh
    simp [rpmsg_eth_xmit, bumpTx, hsh]
  · intro f st hskb hd hsh
    simp [net_xmit_work_handler, hskb, hd, hsh]
  · intro st hsh
    simp [net_xmit_delayed_work_handler, hsh]

theorem C2_shutdown_quiescence_witness :
    (⟨⟨none, true, true, true, false, false, 1, ⟨1, 3, 0, 0⟩⟩,
        true⟩ : Sys).dev.skb = none ∧
    (⟨⟨none, true, true, true, false, false, 1, ⟨1, 3, 0, 0⟩⟩,
        true⟩ : Sys).dev.immediate_scheduled = false ∧
    (⟨⟨none, true, true, true, false, false, 1, ⟨1, 3, 0, 0⟩⟩,
        true⟩ : Sys).dev.delayed_scheduled = false ∧
    (⟨⟨none, true, true, true, false, false, 1, ⟨1, 3, 0, 0⟩⟩,
        true⟩ : Sys).dev.is_shutdown = true ∧
    enabled ⟨⟨none, true, true, true, false, false, 1, ⟨1, 3, 0, 0⟩⟩, true⟩
      (Ev.run_immediate true) = false :=
  have h := C2_shutdown_quiescence.1
    [Ev.accept ⟨3⟩, Ev.run_immediate true, Ev.do_remove]
    ⟨⟨none, true, true, true, false, false, 1, ⟨1, 3, 0, 0⟩⟩, true⟩ 1 1
    (by decide) rfl
  ⟨h.1, h.2.1, h.2.2.1, h.2.2.2.1, h.2.2.2.2 (Ev.run_immediate true)⟩

/-- C6 counterexample: a frame is accepted, its first try-send fails (retry
flag becomes true, frame left in slot), then rpmsg_eth_remove runs: it
performs the frame's single retirement — the shutdown reclaim (retired
count goes 0 to 1) — yet the final state still has is_delayed = true, so
the retry flag is NOT reset on shutdown reclaim, contradicting the claim
that it is reset on every retirement, shutdown reclaim included. -/
theorem C6_cex_reclaim_keeps_retry_flag :
    runTrace [Ev.accept ⟨5⟩, Ev.run_immediate true] =
      some (⟨⟨some ⟨5⟩, true, false, true, false, true, 1, ⟨1, 5, 0, 0⟩⟩,
        false⟩, 1, 0) ∧
    runTrace [Ev.accept ⟨5⟩, Ev.run_immediate true, Ev.do_remove] =
      some (⟨⟨none, true, true, true, false, false, 1, ⟨1, 5, 0, 0⟩⟩,
        true⟩, 1, 1) ∧
    (rpmsg_eth_remove
        ⟨some ⟨5⟩, true, false, true, false, true, 1,
          ⟨1, 5, 0, 0⟩⟩).retired = some RetireKind.reclaim ∧
    (rpmsg_eth_remove
        ⟨some ⟨5⟩, true, false, true, false, true, 1,
          ⟨1, 5, 0, 0⟩⟩).priv.is_delayed = true := by
  refine ⟨by decide, by decide, by decide, by decide⟩

/-- C6 (amended): the retry flag is reset to false by every retirement the
work handler performs (success release and retry-exhaustion drop), it is
false whenever the transmit queue is running — hence false at every point
where a new frame can be accepted — and, before removal, it is true only
while the frame's second attempt is scheduled or pending; but the shutdown
reclaim in rpmsg_eth_remove leaves the flag unchanged, so it can remain
true after teardown. -/
theorem C6_amended_retry_flag :
    (∀ t s a r, runTrace t = some (s, a, r) →
      (s.dev.queue_stopped = false → s.dev.is_delayed = false) ∧
      (s.dev.is_delayed = true → s.removed = true ∨
        (s.dev.skb.isSome = true ∧ (s.dev.delayed_scheduled = true ∨
          s.dev.immediate_scheduled = true)))) ∧
    (∀ e st, (net_xmit_work_handler e st).retired.isSome = true →
      (net_xmit_work_handler e st).priv.is_delayed = false) ∧
    (∀ st, (rpmsg_eth_remove st).priv.is_delayed = st.is_delayed) := by
  refine ⟨?_, ?_, ?_⟩
  · intro t s a r h
    have hI := runTrace_inv t s a r h
    obtain ⟨h1, h2, h3, h4, h5, h6, h7, h8, h9⟩ := hI
    exact ⟨h5, h6⟩
  · intro e st
    cases hskb : st.skb <;> cases e <;> cases hd : st.is_delayed <;>
      cases hsh : st.is_shutdown <;>
      simp [net_xmit_work_handler, xmit_cleanup, hskb, hd, hsh]
  · intro st
    cases hskb : st.skb <;> simp [rpmsg_eth_remove, hskb]

theorem C6_amended_retry_flag_witness :
    ((⟨⟨some ⟨5⟩, true, false, true, false, true, 1, ⟨1, 5, 0, 0⟩⟩,
        false⟩ : Sys).dev.queue_stopped = false →
      (⟨⟨some ⟨5⟩, true, false, true, false, true, 1, ⟨1, 5, 0, 0⟩⟩,
        false⟩ : Sys).dev.is_delayed = false) ∧
    ((⟨⟨some ⟨5⟩, true, false, true, false, true, 1, ⟨1, 5, 0, 0⟩⟩,
        false⟩ : Sys).dev.is_delayed = true →
      (⟨⟨some ⟨5⟩, true, false, true, false, true, 1, ⟨1, 5, 0, 0⟩⟩,
        false⟩ : Sys).removed = true ∨
      ((⟨⟨some ⟨5⟩, true, false, true, false, true, 1, ⟨1, 5, 0, 0⟩⟩,
        false⟩ : Sys).dev.skb.isSome = true ∧
        ((⟨⟨some ⟨5⟩, true, false, true, false, true, 1, ⟨1, 5, 0, 0⟩⟩,
          false⟩ : Sys).dev.delayed_scheduled = true ∨
         (⟨⟨some ⟨5⟩, true, false, true, false, true, 1, ⟨1, 5, 0, 0⟩⟩,
          false⟩ : Sys).dev.immediate_scheduled = true))) :=
  C6_amended_retry_flag.1 [Ev.accept ⟨5⟩, Ev.run_immediate true]
    ⟨⟨some ⟨5⟩, true, false, true, false, true, 1, ⟨1, 5, 0, 0⟩⟩, false⟩ 1 0
    (by decide)

/-- C7: evaluation at the failing input. The host-side RX callback performs
no null check after dev_alloc_skb, so on allocation failure it dereferences
the NULL buffer (modelled as `none`, a crash) instead of dropping the
message, refuting the claim for the host side; the companion-side callback
does satisfy it: on pbuf_alloc failure it returns ERR_MEM with nothing
handed upstream and no statistics counter incremented. -/
theorem C7_rx_alloc_failure :
    rpmsg_eth_rx_cb false 64 init_dev = none ∧
    rpmsg_endpoint_cb false ETHTYPE_IP true =
      ⟨ERR_MEM, false, false, false⟩ := by
  exact ⟨rfl, rfl⟩

/-- C8: evaluation at the failing inputs. On rpmsg_create_ept failure the
companion-side rpmsg_eth_init surfaces ERR_IF but never frees the
mem_malloc'd private struct (malloc_done true, malloc_freed false), and on
register_netdev failure the host-side probe surfaces the error without
calling free_netdev — so resources are NOT all released, refuting the
claim; only the dummy-send failure path of the probe actually frees the
netdev. -/
theorem C8_bringup_failure_leaks :
    rpmsg_eth_init true false = ⟨ERR_IF, true, false, false⟩ ∧
    rpmsg_eth_probe true 0 (-1) = ⟨-1, true, false, false⟩ ∧
    rpmsg_eth_probe true (-19) 0 = ⟨-19, true, true, false⟩ := by
  refine ⟨by decide, by decide, by decide⟩

end RpmsgNetif
